import Mathlib

/-!
Verification of the tiled-pattern paint server of `rsvg_internals`
(`src/rsvg_internals/src/pattern.rs`), as a shallow embedding.

Conventions of the embedding:
* `f64` arithmetic is idealized as exact rational arithmetic (`ℚ`);
  `f64::EPSILON` is the exact rational `2^-52`.
* Collaborator types that live outside this file's source unit
  (`cairo::Matrix`, `ViewBox`, `AspectRatio`, lengths, fragments, the
  drawing context) are modelled from the spec at their interface
  boundary, since only this unit's source is given.
* A Rust panic (failed `assert!` or `Option::unwrap`) is modelled by the
  result `none`; interior mutability (`RefCell` writes into the document)
  is modelled by explicit state passing of a `Doc` value.
-/

namespace Rsvg

/-- Coordinate-space selector (`coord_units.rs`, consumed here). -/
inductive CoordUnits where
  | objectBoundingBox
  | userSpaceOnUse
deriving DecidableEq, Repr

/-- Newtype generated by `coord_units!(PatternUnits, CoordUnits::ObjectBoundingBox)`. -/
structure PatternUnits where
  u : CoordUnits
deriving DecidableEq, Repr

/-- `PatternUnits::default()` is `ObjectBoundingBox` (pattern.rs line 23). -/
def PatternUnits.default : PatternUnits := ⟨CoordUnits.objectBoundingBox⟩

/-- Newtype generated by `coord_units!(PatternContentUnits, CoordUnits::UserSpaceOnUse)`. -/
structure PatternContentUnits where
  u : CoordUnits
deriving DecidableEq, Repr

/-- `PatternContentUnits::default()` is `UserSpaceOnUse` (pattern.rs line 24). -/
def PatternContentUnits.default : PatternContentUnits := ⟨CoordUnits.userSpaceOnUse⟩

/-- Modelled from the spec: a `ViewBox` (viewbox.rs is outside the given
source) is a logical viewport rectangle; `pattern.rs` reads its `x`, `y`,
`width`, `height` fields. -/
structure ViewBox where
  x : ℚ
  y : ℚ
  width : ℚ
  height : ℚ
deriving DecidableEq, Repr

/-- Modelled from the spec: `AspectRatio` (aspect_ratio.rs is outside the
given source) is an opaque alignment/fit policy; `pattern.rs` only needs
its default value, equality, and its `compute` capability (supplied by the
environment below). -/
structure AspectRatio where
  raw : Nat
deriving DecidableEq, Repr

/-- Modelled from the spec: the specification default aspect-ratio policy. -/
def AspectRatio.default : AspectRatio := ⟨0⟩

/-- Modelled from the spec: a `cairo::Matrix` (an assumed capability of the
graphics backend) with cairo's field layout. -/
structure Matrix where
  xx : ℚ
  yx : ℚ
  xy : ℚ
  yy : ℚ
  x0 : ℚ
  y0 : ℚ
deriving DecidableEq, Repr

/-- Modelled from the spec: `cairo::Matrix::identity()`. -/
def Matrix.identity : Matrix := ⟨1, 0, 0, 1, 0, 0⟩

/-- Modelled from the spec: `cairo::Matrix::multiply(&a, &b)` — the
transformation that applies `a` first, then `b` (cairo's row-vector
convention). -/
def Matrix.multiply (a b : Matrix) : Matrix :=
  { xx := a.xx * b.xx + a.yx * b.xy
    yx := a.xx * b.yx + a.yx * b.yy
    xy := a.xy * b.xx + a.yy * b.xy
    yy := a.xy * b.yx + a.yy * b.yy
    x0 := a.x0 * b.xx + a.y0 * b.xy + b.x0
    y0 := a.x0 * b.yx + a.y0 * b.yy + b.y0 }

/-- Modelled from the spec: `m.translate(tx, ty)` — prepend a translation
(cairo applies the new translation before the original transformation). -/
def Matrix.translateM (m : Matrix) (tx ty : ℚ) : Matrix :=
  Matrix.multiply ⟨1, 0, 0, 1, tx, ty⟩ m

/-- Modelled from the spec: `m.scale(sx, sy)` — prepend a scale. -/
def Matrix.scaleM (m : Matrix) (sx sy : ℚ) : Matrix :=
  Matrix.multiply ⟨sx, 0, 0, sy, 0, 0⟩ m

/-- Modelled from the spec: `m.invert()` — matrix inversion, an assumed
capability of the backend (idealized as total over `ℚ`, where division by
a zero determinant yields junk values rather than a backend error). -/
def Matrix.invert (m : Matrix) : Matrix :=
  let det := m.xx * m.yy - m.yx * m.xy
  { xx := m.yy / det
    yx := -m.yx / det
    xy := -m.xy / det
    yy := m.xx / det
    x0 := (m.xy * m.y0 - m.yy * m.x0) / det
    y0 := (m.yx * m.x0 - m.xx * m.y0) / det }

/-- Modelled from the spec: a fragment identifier (`allowed_url.rs` is
outside the given source). -/
def Fragment := String
deriving instance DecidableEq, Repr for Fragment

/-- Modelled from the spec: a parsed CSS length (length.rs is outside the
given source), idealized as its numeric value; `Default::default()` is the
zero length and normalization against a viewport is supplied by the
environment. -/
def LengthHorizontal := ℚ
deriving instance DecidableEq, Repr for LengthHorizontal

/-- Modelled from the spec: vertical counterpart of `LengthHorizontal`. -/
def LengthVertical := ℚ
deriving instance DecidableEq, Repr for LengthVertical

/-- The error type of the definition merger (error.rs is outside the given
source; modelled from the spec, which says other paint-server errors exist
elsewhere in the library, hence the second constructor). -/
inductive PaintServerError where
  | CircularReference (fragment : Fragment)
  | Other (code : Nat)
deriving DecidableEq, Repr

/-- Modelled from the spec: an opaque rendering error propagated from
child rendering (error.rs is outside the given source). -/
inductive RenderingError where
  | Rendering (code : Nat)
deriving DecidableEq, Repr

/-- The `Common` struct of pattern.rs (lines 26-42): every
pattern-defining field independently optional until resolved.  The
`vbox : Option (Option ViewBox)` nesting is the source's own: `none` is
"unresolved", `some none` is "resolved, explicitly absent". -/
structure Common where
  units : Option PatternUnits
  content_units : Option PatternContentUnits
  vbox : Option (Option ViewBox)
  preserve_aspect_ratio : Option AspectRatio
  affine : Option Matrix
  x : Option LengthHorizontal
  y : Option LengthVertical
  width : Option LengthHorizontal
  height : Option LengthVertical
deriving DecidableEq, Repr

/-- `NodePattern` (pattern.rs lines 44-54).  The `node` field models the
contents of the `RefCell<Option<RsvgNode>>` back-reference; an `RsvgNode`
is identified by its stable index in the document. -/
structure NodePattern where
  common : Common
  node : Option Nat
  fallback : Option Fragment
deriving DecidableEq, Repr

/-- `#[derive(Default)]` for `Common`: every field `None`. -/
def Common.default : Common :=
  ⟨none, none, none, none, none, none, none, none, none⟩

/-- `#[derive(Default)]` for `NodePattern`. -/
def NodePattern.default : NodePattern :=
  ⟨Common.default, none, none⟩

/-- `children_are_resolved` (pattern.rs lines 409-417): if the
back-reference is set, ask the tree node whether it has children;
an empty back-reference means nothing further can be resolved. -/
def children_are_resolved (hasChildren : Nat → Bool) (p : NodePattern) : Bool :=
  match p.node with
  | some node => hasChildren node
  | none => true

/-- `is_resolved` (pattern.rs lines 330-341). -/
def is_resolved (hasChildren : Nat → Bool) (p : NodePattern) : Bool :=
  p.common.units.isSome
    && p.common.content_units.isSome
    && p.common.vbox.isSome
    && p.common.preserve_aspect_ratio.isSome
    && p.common.affine.isSome
    && p.common.x.isSome
    && p.common.y.isSome
    && p.common.width.isSome
    && p.common.height.isSome
    && children_are_resolved hasChildren p

/-- `resolve_from_fallback` (pattern.rs lines 343-377): each unset field
is filled from the fallback (`Option::or`), the content candidate is
taken from the fallback exactly when the current candidate is not yet
resolved for children, and the fallback reference carried forward is the
acquired node's own fallback. -/
def resolve_from_fallback (hasChildren : Nat → Bool) (self fb : NodePattern) : NodePattern :=
  { common :=
      { units := self.common.units.or fb.common.units
        content_units := self.common.content_units.or fb.common.content_units
        vbox := self.common.vbox.or fb.common.vbox
        preserve_aspect_ratio := self.common.preserve_aspect_ratio.or fb.common.preserve_aspect_ratio
        affine := self.common.affine.or fb.common.affine
        x := self.common.x.or fb.common.x
        y := self.common.y.or fb.common.y
        width := self.common.width.or fb.common.width
        height := self.common.height.or fb.common.height }
    node :=
      if children_are_resolved hasChildren self = false then fb.node else self.node
    fallback := fb.fallback }

/-- `resolve_from_defaults` (pattern.rs lines 379-407): each unset field
is filled with the specification default; the back-reference is kept and
the fallback reference is cleared. -/
def resolve_from_defaults (self : NodePattern) : NodePattern :=
  { common :=
      { units := self.common.units.or (some PatternUnits.default)
        content_units := self.common.content_units.or (some PatternContentUnits.default)
        vbox := self.common.vbox.or (some none)
        preserve_aspect_ratio := self.common.preserve_aspect_ratio.or (some AspectRatio.default)
        affine := self.common.affine.or (some Matrix.identity)
        x := self.common.x.or (some (0 : ℚ))
        y := self.common.y.or (some (0 : ℚ))
        width := self.common.width.or (some (0 : ℚ))
        height := self.common.height.or (some (0 : ℚ)) }
    node := self.node
    fallback := none }

/-- The document of pattern nodes seen by `resolve`: node identities are
`Nat` indices; `pattern` is the per-node `NodePattern` payload (mutable
through `RefCell`, hence threaded as state), `hasChildren` is
`RsvgNode::has_children`, and `lookup` is
`acquired_nodes().get_node_of_type(fragment, NodeType::Pattern)`. -/
structure Doc where
  hasChildren : Nat → Bool
  pattern : Nat → NodePattern
  lookup : Fragment → Option Nat

/-- The `RefCell` write of pattern.rs line 121:
`*fallback_pattern.node.borrow_mut() = Some(a_node.clone())` — the
acquired node's own payload, stored in the document, gets its
back-reference pointed at the acquired node itself. -/
def Doc.setNodeRef (d : Doc) (i : Nat) : Doc :=
  { d with
    pattern := fun j => if j = i then { d.pattern i with node := some i } else d.pattern j }

/-- The `while !result.is_resolved()` loop of `resolve`
(pattern.rs lines 106-132), with explicit fuel: `none` models
non-termination (fuel exhausted on every finite budget), and the
document is threaded to record `RefCell` writes. -/
def resolveLoop :
    Nat → Doc → NodePattern → List Nat → Option (Doc × Except PaintServerError NodePattern)
  | 0, _, _, _ => none
  | fuel + 1, d, result, stack =>
    if is_resolved d.hasChildren result then some (d, Except.ok result)
    else
      match result.fallback with
      | some fragment =>
        match d.lookup fragment with
        | some aId =>
          if aId ∈ stack then
            some (d, Except.error (PaintServerError.CircularReference fragment))
          else
            let d2 := d.setNodeRef aId
            resolveLoop fuel d2
              (resolve_from_fallback d2.hasChildren result (d2.pattern aId))
              (aId :: stack)
        | none => resolveLoop fuel d (resolve_from_defaults result) stack
      | none => resolveLoop fuel d (resolve_from_defaults result) stack

/-- `resolve` (pattern.rs lines 95-135): clone the starting node's
payload, point its back-reference at the starting node, and run the loop
with an empty visited stack. -/
def resolve (fuel : Nat) (d : Doc) (start : Nat) :
    Option (Doc × Except PaintServerError NodePattern) :=
  resolveLoop fuel d { d.pattern start with node := some start } []

/-- Projection of a `resolve` outcome onto its `Result` value (the mutated
document dropped), for stating claims that only concern the return value. -/
def resolveResult (o : Option (Doc × Except PaintServerError NodePattern)) :
    Option (Except PaintServerError NodePattern) :=
  o.map Prod.snd

/-- `f64::EPSILON`, the exact rational `2^-52`. -/
def f64Epsilon : ℚ := 1 / 4503599627370496

/-- The Rust cast `as i32` on a finite float value: truncation toward
zero, written through the sign/magnitude of the exact rational. -/
def ratTrunc (q : ℚ) : Int := q.num.tdiv q.den

/-- Modelled from the spec: a viewport (the value returned by
`push_view_box` / `get_view_params`), against which lengths are
normalized. -/
structure ViewParams where
  vw : ℚ
  vh : ℚ
deriving DecidableEq, Repr

/-- Modelled from the spec: `cairo::Rectangle` / the bounding-box
rectangle (`bbox.rs` is outside the given source). -/
structure Rect where
  x : ℚ
  y : ℚ
  width : ℚ
  height : ℚ
deriving DecidableEq, Repr

/-- Modelled from the spec: the target `BoundingBox`; `rect` is absent
when the target shape has no extent computed. -/
structure BoundingBox where
  rect : Option Rect
deriving DecidableEq, Repr

/-- A surface pattern installed on the cairo context (`set_source`): the
offscreen tile size and the placement matrix handed to cairo (the other
arguments at lines 315 and 321, `Extend::Repeat` and `Filter::Best`, are
constants). -/
structure InstalledPattern where
  size : Int × Int
  matrix : Matrix
deriving DecidableEq, Repr

/-- The observable state of the drawing context threaded through
`set_pattern_on_draw_context`: the current transform of the caller's
cairo context, the caller's viewport, the identity of the active cairo
context (redirection target), plus records of the offscreen surface
created, the matrix set on the offscreen context, and the paint source
installed on the caller's context. -/
structure DrawState where
  crMatrix : Matrix
  viewParams : ViewParams
  activeCtx : Nat
  createdSurface : Option (Int × Int)
  patternCtxMatrix : Option Matrix
  installed : Option InstalledPattern
deriving DecidableEq, Repr

/-- Modelled from the spec: the capabilities this component consumes from
its collaborators during rendering.  `normalizeH`/`normalizeV` are
`Length::normalize(values, params)` (the computed values folded in);
`sqrtQ` is `f64::sqrt`; `approxEqOne` is `approx_eq_cairo(1.0)`;
`aspectCompute` is `AspectRatio::compute`; `drawResult` is the outcome of
`with_discrete_layer`/`draw_children` on the content node. -/
structure RenderEnv where
  normalizeH : LengthHorizontal → ViewParams → ℚ
  normalizeV : LengthVertical → ViewParams → ℚ
  sqrtQ : ℚ → ℚ
  approxEqOne : ℚ → Bool
  aspectCompute : AspectRatio → ViewBox → Rect → ℚ × ℚ × ℚ × ℚ
  drawResult : Except RenderingError Unit

/-- The spec's own description of the pixel-size rounding, for comparison
with the source's cast: "integer truncation toward zero". -/
def truncTowardZero (q : ℚ) : Int := if 0 ≤ q then ⌊q⌋ else ⌈q⌉

/-- Lines 197-215 of pattern.rs: the candidate pixel tile size
(`pw = (pattern_width * bbwscale * scwscale) as i32`, likewise `ph`), the
degenerate-tile check (logical size within `f64::EPSILON` of zero, or a
sub-pixel tile), and the re-quantized scale factors
(`scwscale = f64::from(pw) / scaled_width`, likewise `schscale`).
Returns `none` exactly on the `return Ok(false)` branch of line 211. -/
def tile_geometry (pattern_width pattern_height bbwscale bbhscale scwscale schscale : ℚ) :
    Option (Int × Int × ℚ × ℚ) :=
  let pw : Int := ratTrunc (pattern_width * bbwscale * scwscale)
  let ph : Int := ratTrunc (pattern_height * bbhscale * schscale)
  let scaled_width := pattern_width * bbwscale
  let scaled_height := pattern_height * bbhscale
  if |scaled_width| < f64Epsilon ∨ |scaled_height| < f64Epsilon ∨ pw < 1 ∨ ph < 1 then
    none
  else
    some (pw, ph, (pw : ℚ) / scaled_width, (ph : ℚ) / scaled_height)

/-- `set_pattern_on_draw_context` (pattern.rs lines 139-326).
`none` models a panic (the entry `assert!(self.is_resolved())`, the
attribute-field `unwrap()`s, or one of the three `bbox.rect.unwrap()`s at
lines 182, 222 and 260); otherwise the result carries the final drawing
state (the redirection of lines 292/310 is entered and unconditionally
undone, so the final `activeCtx` equals the entry one) and the function's
`Result<bool, RenderingError>` value. -/
def set_pattern_on_draw_context (env : RenderEnv) (hasChildren : Nat → Bool)
    (self : NodePattern) (bbox : BoundingBox) (st : DrawState) :
    Option (DrawState × Except RenderingError Bool) :=
  -- line 146: assert!(self.is_resolved())
  if is_resolved hasChildren self = false then none
  else
    -- lines 148-152: empty pattern, nothing to render
    match self.node with
    | none => some (st, Except.ok false)
    | some _patternNode =>
      -- lines 154-158 and 167-170: unwrap the attribute fields
      match self.common.units, self.common.content_units, self.common.affine,
          self.common.vbox, self.common.preserve_aspect_ratio, self.common.x,
          self.common.y, self.common.width, self.common.height with
      | some units, some content_units, some pattern_affine, some vbox, some par,
        some xl, some yl, some wl, some hl =>
        -- lines 160-173: normalize placement lengths against the frame
        let params :=
          if units = PatternUnits.mk CoordUnits.objectBoundingBox then ViewParams.mk 1 1
          else st.viewParams
        let pattern_x := env.normalizeH xl params
        let pattern_y := env.normalizeV yl params
        let pattern_width := env.normalizeH wl params
        let pattern_height := env.normalizeV hl params
        -- lines 177-191: bounding-box scale factors (unwrap at line 182)
        let bbscales : Option (ℚ × ℚ) :=
          match units with
          | ⟨CoordUnits.objectBoundingBox⟩ =>
            match bbox.rect with
            | none => none
            | some bbrect => some (bbrect.width, bbrect.height)
          | ⟨CoordUnits.userSpaceOnUse⟩ => some (1, 1)
        match bbscales with
        | none => none
        | some (bbwscale, bbhscale) =>
          -- lines 193-198: combined transform, row-norm scale factors
          let taffine := Matrix.multiply pattern_affine st.crMatrix
          let scwscale := env.sqrtQ (taffine.xx * taffine.xx + taffine.xy * taffine.xy)
          let schscale := env.sqrtQ (taffine.yx * taffine.yx + taffine.yy * taffine.yy)
          -- lines 200-215: pixel tile size, degenerate check, re-quantization
          match tile_geometry pattern_width pattern_height bbwscale bbhscale scwscale schscale with
          | none => some (st, Except.ok false)
          | some (pw, ph, scw2, sch2) =>
            -- lines 217-232: placement coordinate system (unwrap at line 222)
            let placement0 : Option Matrix :=
              match units with
              | ⟨CoordUnits.objectBoundingBox⟩ =>
                match bbox.rect with
                | none => none
                | some bbrect =>
                  some (Matrix.translateM Matrix.identity
                    (bbrect.x + pattern_x * bbrect.width)
                    (bbrect.y + pattern_y * bbrect.height))
              | ⟨CoordUnits.userSpaceOnUse⟩ =>
                some (Matrix.translateM Matrix.identity pattern_x pattern_y)
            match placement0 with
            | none => none
            | some placement =>
              -- line 235: apply the pattern transform
              let affine1 := Matrix.multiply placement pattern_affine
              -- lines 237-269: content coordinate system (unwrap at line 260)
              let caffine0 : Option Matrix :=
                match vbox with
                | some vb =>
                  let fit := env.aspectCompute par vb
                    (Rect.mk 0 0 (pattern_width * bbwscale) (pattern_height * bbhscale))
                  let w := fit.2.2.1
                  let h := fit.2.2.2
                  let x1 := fit.1 - vb.x * w / vb.width
                  let y1 := fit.2.1 - vb.y * h / vb.height
                  some (Matrix.mk (w / vb.width) 0 0 (h / vb.height) x1 y1)
                | none =>
                  match content_units with
                  | ⟨CoordUnits.objectBoundingBox⟩ =>
                    match bbox.rect with
                    | none => none
                    | some bbrect =>
                      some (Matrix.scaleM Matrix.identity bbrect.width bbrect.height)
                  | ⟨CoordUnits.userSpaceOnUse⟩ => some Matrix.identity
              match caffine0 with
              | none => none
              | some caffine =>
                -- lines 271-280: fold the re-quantized scales into both affines
                let folded :=
                  if env.approxEqOne scw2 = false ∨ env.approxEqOne sch2 = false then
                    (Matrix.multiply caffine (Matrix.scaleM Matrix.identity scw2 sch2),
                     Matrix.multiply (Matrix.scaleM Matrix.identity (1 / scw2) (1 / sch2)) affine1)
                  else (caffine, affine1)
                -- lines 282-323: redirect to the offscreen tile (line 292),
                -- render, unconditionally restore (line 310), install the
                -- repeating surface pattern with the inverted placement
                let stRedirected := { st with activeCtx := st.activeCtx + 1 }
                let stFinal : DrawState :=
                  { stRedirected with
                    activeCtx := st.activeCtx
                    createdSurface := some (pw, ph)
                    patternCtxMatrix := some folded.1
                    installed := some (InstalledPattern.mk (pw, ph) (Matrix.invert folded.2)) }
                -- line 325: res.and_then(|_| Ok(true))
                match env.drawResult with
                | Except.error e => some (stFinal, Except.error e)
                | Except.ok _ => some (stFinal, Except.ok true)
      | _, _, _, _, _, _, _, _, _ => none

/-- Projection of a `resolve` outcome onto one document node's payload,
for observing the `RefCell` writes that survive the call. -/
def resolveDocPattern (o : Option (Doc × Except PaintServerError NodePattern)) (i : Nat) :
    Option NodePattern :=
  o.map (fun out => out.1.pattern i)

/-- A document holding a single pattern node `0` with no children, no
fallback and every attribute unset — the `<pattern id="p"/>` document. -/
def loneDoc : Doc :=
  { hasChildren := fun _ => false
    pattern := fun _ => NodePattern.default
    lookup := fun _ => none }

/-- The state the `resolve` loop reaches on `loneDoc` after its first
default-fill iteration. -/
def loneFilled : NodePattern :=
  resolve_from_defaults { NodePattern.default with node := some 0 }

/-- A document holding a single pattern node `0` that has children, no
fallback and every attribute unset. -/
def leafDoc : Doc :=
  { hasChildren := fun _ => true
    pattern := fun _ => NodePattern.default
    lookup := fun _ => none }

/-- The fully-resolved payload produced for node `0` of `leafDoc`. -/
def leafResolved : NodePattern :=
  { common :=
      { units := some PatternUnits.default
        content_units := some PatternContentUnits.default
        vbox := some none
        preserve_aspect_ratio := some AspectRatio.default
        affine := some Matrix.identity
        x := some (0 : ℚ)
        y := some (0 : ℚ)
        width := some (0 : ℚ)
        height := some (0 : ℚ) }
    node := some 0
    fallback := none }

/-- A two-node document whose fallback references form the cycle
`"a" → "b" → "a"`: node `0` is the pattern named `"a"` (fallback `"b"`),
node `1` is the pattern named `"b"` (fallback `"a"`); neither has
children or any attribute set. -/
def cycleDoc : Doc :=
  { hasChildren := fun _ => false
    pattern := fun i =>
      if i = 0 then ⟨Common.default, none, some "b"⟩
      else ⟨Common.default, none, some "a"⟩
    lookup := fun f => if f = "a" then some 0 else if f = "b" then some 1 else none }

/-- An attribute record with every field set to its specification
default. -/
def fullCommon : Common :=
  { units := some PatternUnits.default
    content_units := some PatternContentUnits.default
    vbox := some none
    preserve_aspect_ratio := some AspectRatio.default
    affine := some Matrix.identity
    x := some (0 : ℚ)
    y := some (0 : ℚ)
    width := some (0 : ℚ)
    height := some (0 : ℚ) }

/-- A two-node document with an acyclic fallback link: node `0` (childless,
all attributes unset) falls back on fragment `"b"` = node `1`, which is
fully specified, has children, and has no further fallback.  Node `1`'s
back-reference starts out empty. -/
def chainDoc : Doc :=
  { hasChildren := fun i => i == 1
    pattern := fun i =>
      if i = 0 then ⟨Common.default, none, some "b"⟩ else ⟨fullCommon, none, none⟩
    lookup := fun f => if f = "b" then some 1 else none }


/-- An environment whose collaborator capabilities are simple concrete
functions: normalization returns the raw length value, the square root
and approximate-equality hooks are trivial, and child rendering
succeeds. -/
def idEnv : RenderEnv :=
  { normalizeH := fun l _ => l
    normalizeV := fun l _ => l
    sqrtQ := fun q => q
    approxEqOne := fun _ => true
    aspectCompute := fun _ _ r => (0, 0, r.width, r.height)
    drawResult := Except.ok () }

/-- Like `idEnv` but child rendering fails with a concrete error. -/
def failEnv : RenderEnv :=
  { idEnv with drawResult := Except.error (RenderingError.Rendering 7) }

/-- A drawing state with identity transform and a unit viewport. -/
def baseSt : DrawState :=
  { crMatrix := Matrix.identity
    viewParams := ⟨1, 1⟩
    activeCtx := 0
    createdSurface := none
    patternCtxMatrix := none
    installed := none }

/-- A fully-resolved pattern in user-space units with unit tile lengths,
no viewBox, and content node `0`. -/
def uspPattern : NodePattern :=
  ⟨{ units := some ⟨CoordUnits.userSpaceOnUse⟩
     content_units := some ⟨CoordUnits.userSpaceOnUse⟩
     vbox := some none
     preserve_aspect_ratio := some AspectRatio.default
     affine := some Matrix.identity
     x := some (0 : ℚ)
     y := some (0 : ℚ)
     width := some (1 : ℚ)
     height := some (1 : ℚ) }, some 0, none⟩

/-- A bounding box whose rectangle is absent. -/
def noRect : BoundingBox := ⟨none⟩

theorem resolveLoop_error_shape :
    ∀ (fuel : Nat) (d : Doc) (r : NodePattern) (stack : List Nat)
      (d' : Doc) (e : PaintServerError),
      resolveLoop fuel d r stack = some (d', Except.error e) →
      ∃ f, e = PaintServerError.CircularReference f := by
  intro fuel
  induction fuel with
  | zero => intro d r stack d' e h; simp [resolveLoop] at h
  | succ n ih =>
    intro d r stack d' e h
    simp only [resolveLoop] at h
    split at h
    · simp at h
    · split at h
      · split at h
        · split at h
          · simp at h
            exact ⟨_, h.2.symm⟩
          · exact ih _ _ _ _ _ h
        · exact ih _ _ _ _ _ h
      · exact ih _ _ _ _ _ h

theorem resolveLoop_ok_resolved :
    ∀ (fuel : Nat) (d : Doc) (r : NodePattern) (stack : List Nat)
      (d' : Doc) (res : NodePattern),
      resolveLoop fuel d r stack = some (d', Except.ok res) →
      is_resolved d.hasChildren res = true := by
  intro fuel
  induction fuel with
  | zero => intro d r stack d' res h; simp [resolveLoop] at h
  | succ n ih =>
    intro d r stack d' res h
    simp only [resolveLoop] at h
    split at h
    · rename_i hres
      simp at h
      exact h.2 ▸ hres
    · split at h
      · split at h
        · split at h
          · simp at h
          · rename_i aId _ _
            exact ih (d.setNodeRef aId) _ _ _ _ h
        · exact ih _ _ _ _ _ h
      · exact ih _ _ _ _ _ h

theorem resolveLoop_doc_invariant :
    ∀ (fuel : Nat) (d : Doc) (r : NodePattern) (stack : List Nat)
      (out : Doc × Except PaintServerError NodePattern),
      resolveLoop fuel d r stack = some out →
      ∀ i, (out.1.pattern i).common = (d.pattern i).common ∧
        (out.1.pattern i).fallback = (d.pattern i).fallback ∧
        ((out.1.pattern i).node = (d.pattern i).node ∨ (out.1.pattern i).node = some i) := by
  intro fuel
  induction fuel with
  | zero => intro d r stack out h; simp [resolveLoop] at h
  | succ n ih =>
    intro d r stack out h
    simp only [resolveLoop] at h
    split at h
    · rw [Option.some_inj] at h
      cases h
      exact fun i => ⟨rfl, rfl, Or.inl rfl⟩
    · split at h
      · split at h
        · split at h
          · rw [Option.some_inj] at h
            cases h
            exact fun i => ⟨rfl, rfl, Or.inl rfl⟩
          · rename_i aId _ _
            intro i
            have step := ih _ _ _ _ h i
            by_cases hia : i = aId
            · subst hia
              have hcomm : ((d.setNodeRef i).pattern i).common = (d.pattern i).common := by
                simp [Doc.setNodeRef]
              have hfb : ((d.setNodeRef i).pattern i).fallback = (d.pattern i).fallback := by
                simp [Doc.setNodeRef]
              have hnode : ((d.setNodeRef i).pattern i).node = some i := by
                simp [Doc.setNodeRef]
              exact ⟨step.1.trans hcomm, step.2.1.trans hfb,
                Or.inr (step.2.2.elim (fun h2 => h2.trans hnode) id)⟩
            · have heq : (d.setNodeRef aId).pattern i = d.pattern i := by
                simp [Doc.setNodeRef, hia]
              exact ⟨step.1.trans (by rw [heq]), step.2.1.trans (by rw [heq]),
                step.2.2.imp (fun h2 => h2.trans (by rw [heq])) id⟩
        · exact fun i => ih _ _ _ _ h i
      · exact fun i => ih _ _ _ _ h i


theorem resolveLoop_lone_stuck :
    ∀ (fuel : Nat) (stack : List Nat),
      resolveLoop fuel loneDoc loneFilled stack = none := by
  intro fuel
  induction fuel with
  | zero => intro stack; rfl
  | succ n ih => intro stack; exact ih stack

/-- Claim C1: the spec guarantees the resolve loop terminates in at most
(number of distinct pattern nodes + 1) iterations, including when the
starting node has no fallback, no children, and unset fields.  The code
violates this: on the one-node childless document `loneDoc` the loop
never terminates — after the first default-fill the state is an
unresolved fixpoint (`children_are_resolved` stays false because the
back-reference keeps pointing at the childless node, contradicting the
source's own comment that a resolved "empty" pattern has back-reference
`None`), so `resolve` runs out of every finite fuel budget. -/
theorem C1_resolve_diverges_on_childless_lone_pattern :
    ∀ fuel : Nat, resolve fuel loneDoc 0 = none := by
  intro fuel
  cases fuel with
  | zero => rfl
  | succ n => exact resolveLoop_lone_stuck n []

/-- Claim C2: on the two-node fallback cycle a→b→a, `resolve` returns
`CircularReference` naming `"b"` (the fragment encountered a second
time), and `CircularReference` is the only error `resolve` ever
returns. -/
theorem C2_cycle_circular_reference :
    resolveResult (resolve 5 cycleDoc 0) =
      some (Except.error (PaintServerError.CircularReference "b")) ∧
    ∀ (fuel : Nat) (d : Doc) (start : Nat) (e : PaintServerError),
      resolveResult (resolve fuel d start) = some (Except.error e) →
      ∃ f, e = PaintServerError.CircularReference f := by
  refine ⟨rfl, ?_⟩
  intro fuel d start e h
  obtain ⟨⟨d', r⟩, hr, hsnd⟩ := Option.map_eq_some'.mp h
  dsimp at hsnd
  subst hsnd
  exact resolveLoop_error_shape fuel d _ [] d' e hr

theorem C2_cycle_circular_reference_witness :
    ∃ f, PaintServerError.CircularReference "b" = PaintServerError.CircularReference f :=
  C2_cycle_circular_reference.2 5 cycleDoc 0 (PaintServerError.CircularReference "b") rfl

/-- Claim C3: one merge step `resolve_from_fallback` keeps every
self-set field, copies every unset field from the fallback, carries
forward the acquired node's own fallback reference, and takes the
acquired node's content candidate exactly when the current candidate's
owning tree node has no children. -/
theorem C3_merge_step (hc : Nat → Bool) (self fb : NodePattern) (n : Nat)
    (hnode : self.node = some n) :
    (hc n = false → (resolve_from_fallback hc self fb).node = fb.node) ∧
    (hc n = true → (resolve_from_fallback hc self fb).node = self.node) ∧
    (resolve_from_fallback hc self fb).fallback = fb.fallback ∧
    (∀ v, self.common.units = some v →
      (resolve_from_fallback hc self fb).common.units = some v) ∧
    (self.common.units = none →
      (resolve_from_fallback hc self fb).common.units = fb.common.units) ∧
    (∀ v, self.common.content_units = some v →
      (resolve_from_fallback hc self fb).common.content_units = some v) ∧
    (self.common.content_units = none →
      (resolve_from_fallback hc self fb).common.content_units = fb.common.content_units) ∧
    (∀ v, self.common.vbox = some v →
      (resolve_from_fallback hc self fb).common.vbox = some v) ∧
    (self.common.vbox = none →
      (resolve_from_fallback hc self fb).common.vbox = fb.common.vbox) ∧
    (∀ v, self.common.preserve_aspect_ratio = some v →
      (resolve_from_fallback hc self fb).common.preserve_aspect_ratio = some v) ∧
    (self.common.preserve_aspect_ratio = none →
      (resolve_from_fallback hc self fb).common.preserve_aspect_ratio
        = fb.common.preserve_aspect_ratio) ∧
    (∀ v, self.common.affine = some v →
      (resolve_from_fallback hc self fb).common.affine = some v) ∧
    (self.common.affine = none →
      (resolve_from_fallback hc self fb).common.affine = fb.common.affine) ∧
    (∀ v, self.common.x = some v →
      (resolve_from_fallback hc self fb).common.x = some v) ∧
    (self.common.x = none →
      (resolve_from_fallback hc self fb).common.x = fb.common.x) ∧
    (∀ v, self.common.y = some v →
      (resolve_from_fallback hc self fb).common.y = some v) ∧
    (self.common.y = none →
      (resolve_from_fallback hc self fb).common.y = fb.common.y) ∧
    (∀ v, self.common.width = some v →
      (resolve_from_fallback hc self fb).common.width = some v) ∧
    (self.common.width = none →
      (resolve_from_fallback hc self fb).common.width = fb.common.width) ∧
    (∀ v, self.common.height = some v →
      (resolve_from_fallback hc self fb).common.height = some v) ∧
    (self.common.height = none →
      (resolve_from_fallback hc self fb).common.height = fb.common.height) := by
  refine ⟨fun hcn => ?_, fun hcn => ?_, rfl,
    fun v hv => ?_, fun hv => ?_, fun v hv => ?_, fun hv => ?_,
    fun v hv => ?_, fun hv => ?_, fun v hv => ?_, fun hv => ?_,
    fun v hv => ?_, fun hv => ?_, fun v hv => ?_, fun hv => ?_,
    fun v hv => ?_, fun hv => ?_, fun v hv => ?_, fun hv => ?_,
    fun v hv => ?_, fun hv => ?_⟩ <;>
  simp [resolve_from_fallback, children_are_resolved, hnode, *]

theorem C3_merge_step_witness :
    (resolve_from_fallback (fun _ => false)
      ⟨Common.default, some 0, some "x"⟩ ⟨fullCommon, some 1, none⟩).node
      = (⟨fullCommon, some 1, none⟩ : NodePattern).node :=
  (C3_merge_step (fun _ => false)
    ⟨Common.default, some 0, some "x"⟩ ⟨fullCommon, some 1, none⟩ 0 rfl).1 rfl

/-- Claim C4 counterexample: `resolve` does mutate a source pattern node.
On `chainDoc`, after a successful resolve, the acquired node `1`'s
content-node back-reference in the document has been written to
`some 1`, while before the call it was `none` (the write of
pattern.rs line 121). -/
theorem C4_counterexample_backref_mutated :
    resolveDocPattern (resolve 5 chainDoc 0) 1 = some ⟨fullCommon, some 1, none⟩ ∧
    (chainDoc.pattern 1).node = none :=
  ⟨rfl, rfl⟩

/-- Claim C4 amended: `resolve` never mutates any source node's attribute
fields or fallback reference; the only mutation is that an acquired
node's content-node back-reference may be set to point at that node
itself. -/
theorem C4_amended_mutation_bound :
    ∀ (fuel : Nat) (d : Doc) (start : Nat)
      (out : Doc × Except PaintServerError NodePattern),
      resolve fuel d start = some out →
      ∀ i, (out.1.pattern i).common = (d.pattern i).common ∧
        (out.1.pattern i).fallback = (d.pattern i).fallback ∧
        ((out.1.pattern i).node = (d.pattern i).node ∨ (out.1.pattern i).node = some i) := by
  intro fuel d start out h
  exact resolveLoop_doc_invariant fuel d _ [] out h

theorem C4_amended_mutation_bound_witness :
    ((chainDoc.setNodeRef 1).pattern 1).common = (chainDoc.pattern 1).common ∧
    ((chainDoc.setNodeRef 1).pattern 1).fallback = (chainDoc.pattern 1).fallback ∧
    (((chainDoc.setNodeRef 1).pattern 1).node = (chainDoc.pattern 1).node ∨
      ((chainDoc.setNodeRef 1).pattern 1).node = some 1) :=
  C4_amended_mutation_bound 5 chainDoc 0
    (chainDoc.setNodeRef 1, Except.ok ⟨fullCommon, some 1, none⟩) rfl 1

/-- Claim C6: whenever `resolve` returns `Ok`, every attribute field of
the returned pattern is `Some` and `is_resolved()` holds on the result
(with respect to the document's child relation). -/
theorem C6_ok_implies_resolved :
    ∀ (fuel : Nat) (d : Doc) (start : Nat) (res : NodePattern),
      resolveResult (resolve fuel d start) = some (Except.ok res) →
      (res.common.units.isSome = true ∧ res.common.content_units.isSome = true ∧
       res.common.vbox.isSome = true ∧ res.common.preserve_aspect_ratio.isSome = true ∧
       res.common.affine.isSome = true ∧ res.common.x.isSome = true ∧
       res.common.y.isSome = true ∧ res.common.width.isSome = true ∧
       res.common.height.isSome = true) ∧
      is_resolved d.hasChildren res = true := by
  intro fuel d start res h
  obtain ⟨⟨d', r⟩, hr, hsnd⟩ := Option.map_eq_some'.mp h
  dsimp at hsnd
  subst hsnd
  have key := resolveLoop_ok_resolved fuel d _ [] d' res hr
  refine ⟨?_, key⟩
  have key2 := key
  simp only [is_resolved, Bool.and_eq_true] at key2
  tauto

theorem C6_ok_implies_resolved_witness :
    (leafResolved.common.units.isSome = true ∧
     leafResolved.common.content_units.isSome = true ∧
     leafResolved.common.vbox.isSome = true ∧
     leafResolved.common.preserve_aspect_ratio.isSome = true ∧
     leafResolved.common.affine.isSome = true ∧ leafResolved.common.x.isSome = true ∧
     leafResolved.common.y.isSome = true ∧ leafResolved.common.width.isSome = true ∧
     leafResolved.common.height.isSome = true) ∧
    is_resolved leafDoc.hasChildren leafResolved = true :=
  C6_ok_implies_resolved 3 leafDoc 0 leafResolved rfl

/-- Claim C7: resolving a definition with every field unset and no
fallback yields a fully-set attribute record equal to the specification
defaults (units ObjectBoundingBox, content units UserSpaceOnUse, viewBox
resolved-explicitly-absent, default aspect policy, identity transform,
zero placement lengths), and `is_resolved()` holds on the result; the
same record is produced by the full `resolve` on a one-node document
whose node has children. -/
theorem C7_defaults_closure :
    (resolve_from_defaults NodePattern.default).common.units
      = some ⟨CoordUnits.objectBoundingBox⟩ ∧
    (resolve_from_defaults NodePattern.default).common.content_units
      = some ⟨CoordUnits.userSpaceOnUse⟩ ∧
    (resolve_from_defaults NodePattern.default).common.vbox = some none ∧
    (resolve_from_defaults NodePattern.default).common.preserve_aspect_ratio
      = some AspectRatio.default ∧
    (resolve_from_defaults NodePattern.default).common.affine = some Matrix.identity ∧
    (resolve_from_defaults NodePattern.default).common.x = some (0 : ℚ) ∧
    (resolve_from_defaults NodePattern.default).common.y = some (0 : ℚ) ∧
    (resolve_from_defaults NodePattern.default).common.width = some (0 : ℚ) ∧
    (resolve_from_defaults NodePattern.default).common.height = some (0 : ℚ) ∧
    (∀ hc : Nat → Bool, is_resolved hc (resolve_from_defaults NodePattern.default) = true) ∧
    resolveResult (resolve 3 leafDoc 0) = some (Except.ok leafResolved) ∧
    leafResolved.common = fullCommon :=
  ⟨rfl, rfl, rfl, rfl, rfl, rfl, rfl, rfl, rfl, fun _ => rfl, rfl, rfl⟩


theorem ratTrunc_eq_truncTowardZero (q : ℚ) : ratTrunc q = truncTowardZero q := by
  unfold ratTrunc truncTowardZero
  rcases le_or_lt 0 q with h | h
  · rw [if_pos h, Int.tdiv_eq_ediv (Rat.num_nonneg.mpr h) (Int.natCast_nonneg q.den),
      Rat.floor_def]
  · rw [if_neg (not_le.mpr h)]
    have hnum : q.num < 0 := Rat.num_neg.mpr h
    have h1 : q.num.tdiv q.den = -((-q.num).tdiv q.den) := by
      rw [Int.neg_tdiv, neg_neg]
    rw [h1, Int.tdiv_eq_ediv (by omega) (Int.natCast_nonneg q.den)]
    rw [show ⌈q⌉ = -⌊-q⌋ from by rw [Int.floor_neg]; ring]
    congr 1
    rw [Rat.floor_def, Rat.neg_num, Rat.neg_den]

theorem tile_geometry_eq_none_iff (w h bw bh sx sy : ℚ) :
    tile_geometry w h bw bh sx sy = none ↔
      (|w * bw| < f64Epsilon ∨ |h * bh| < f64Epsilon ∨
       ratTrunc (w * bw * sx) < 1 ∨ ratTrunc (h * bh * sy) < 1) := by
  simp only [tile_geometry]
  split <;> simp_all

theorem C8_pixel_quantization :
    (∀ (w h bw bh sx sy : ℚ) (pw ph : Int) (qx qy : ℚ),
      tile_geometry w h bw bh sx sy = some (pw, ph, qx, qy) →
      pw = truncTowardZero (w * bw * sx) ∧ ph = truncTowardZero (h * bh * sy) ∧
      qx = (pw : ℚ) / (w * bw) ∧ qy = (ph : ℚ) / (h * bh)) ∧
    tile_geometry 10 1 1 1 (333/100) 1 = some (33, 1, 33/10, 1) := by
  constructor
  · intro w h bw bh sx sy pw ph qx qy hsome
    simp only [tile_geometry] at hsome
    split at hsome
    · simp at hsome
    · simp only [Option.some_inj, Prod.mk.injEq] at hsome
      obtain ⟨h1, h2, h3, h4⟩ := hsome
      refine ⟨?_, ?_, ?_, ?_⟩
      · rw [← h1, ratTrunc_eq_truncTowardZero]
      · rw [← h2, ratTrunc_eq_truncTowardZero]
      · rw [← h3, ← h1]
      · rw [← h4, ← h2]
  · have e1 : (10 : ℚ) * 1 * (333/100) = 333/10 := by norm_num
    have e2 : (1 : ℚ) * 1 * 1 = 1 := by norm_num
    have t1 : ratTrunc ((10 : ℚ) * 1 * (333/100)) = 33 := by
      rw [e1, ratTrunc_eq_truncTowardZero, truncTowardZero, if_pos (by norm_num)]
      norm_num
    have t2 : ratTrunc ((1 : ℚ) * 1 * 1) = 1 := by
      rw [e2, ratTrunc_eq_truncTowardZero, truncTowardZero, if_pos (by norm_num)]
      norm_num
    simp only [tile_geometry, t1, t2]
    rw [if_neg (by norm_num [f64Epsilon])]
    rw [Option.some_inj]
    norm_num


theorem C8_pixel_quantization_witness :
    (33 : Int) = truncTowardZero ((10 : ℚ) * 1 * (333/100)) ∧
    (1 : Int) = truncTowardZero ((1 : ℚ) * 1 * 1) ∧
    (33 : ℚ)/10 = ((33 : Int) : ℚ) / ((10 : ℚ) * 1) ∧
    (1 : ℚ) = ((1 : Int) : ℚ) / ((1 : ℚ) * 1) :=
  C8_pixel_quantization.1 10 1 1 1 (333/100) 1 33 1 (33/10) 1 C8_pixel_quantization.2

theorem render_cases (env : RenderEnv) (hc : Nat → Bool) (self : NodePattern)
    (bbox : BoundingBox) (st : DrawState) :
    set_pattern_on_draw_context env hc self bbox st = none ∨
    set_pattern_on_draw_context env hc self bbox st = some (st, Except.ok false) ∨
    ∃ pw ph cm im,
      set_pattern_on_draw_context env hc self bbox st =
        some ({ st with createdSurface := some (pw, ph),
                        patternCtxMatrix := some cm,
                        installed := some im },
              match env.drawResult with
              | Except.error e => Except.error e
              | Except.ok _ => Except.ok true) := by
  simp only [set_pattern_on_draw_context]
  split
  · exact Or.inl rfl
  · split
    · exact Or.inr (Or.inl rfl)
    · split
      · split
        · exact Or.inl rfl
        · split
          · exact Or.inr (Or.inl rfl)
          · split
            · exact Or.inl rfl
            · split
              · exact Or.inl rfl
              · cases hdr : env.drawResult with
                | error e => exact Or.inr (Or.inr ⟨_, _, _, _, rfl⟩)
                | ok u => exact Or.inr (Or.inr ⟨_, _, _, _, rfl⟩)
      · exact Or.inl rfl


/-- Claim C9: if rendering the content node's children fails, the
function never reports success — every non-panicking return is either a
pre-render skip (`Ok(false)`, children never rendered) or exactly the
child-rendering error, unmodified — and the drawing context's
redirection has been undone on return: the active context and the
caller's transform are those at entry (pattern.rs line 310 restores the
saved context unconditionally, before `res` is propagated at line 325). -/
theorem C9_error_propagation :
    ∀ (env : RenderEnv) (hc : Nat → Bool) (self : NodePattern)
      (bbox : BoundingBox) (st : DrawState) (e : RenderingError),
      env.drawResult = Except.error e →
      ∀ (st' : DrawState) (r : Except RenderingError Bool),
        set_pattern_on_draw_context env hc self bbox st = some (st', r) →
        (r = Except.ok false ∨ r = Except.error e) ∧
        st'.activeCtx = st.activeCtx ∧ st'.crMatrix = st.crMatrix := by
  intro env hc self bbox st e hdraw st' r h
  rcases render_cases env hc self bbox st with h1 | h2 | ⟨pw, ph, cm, im, h3⟩
  · rw [h1] at h; exact absurd h (by simp)
  · rw [h2, Option.some_inj, Prod.mk.injEq] at h
    exact ⟨Or.inl h.2.symm, by rw [← h.1], by rw [← h.1]⟩
  · rw [h3, hdraw, Option.some_inj, Prod.mk.injEq] at h
    exact ⟨Or.inr h.2.symm, by rw [← h.1], by rw [← h.1]⟩

theorem C9_error_propagation_witness :
    ((Except.ok false : Except RenderingError Bool) = Except.ok false ∨
      (Except.ok false : Except RenderingError Bool)
        = Except.error (RenderingError.Rendering 7)) ∧
    baseSt.activeCtx = baseSt.activeCtx ∧ baseSt.crMatrix = baseSt.crMatrix :=
  C9_error_propagation failEnv (fun _ => true) ⟨fullCommon, none, none⟩ noRect baseSt
    (RenderingError.Rendering 7) rfl baseSt (Except.ok false) rfl

/-- Claim C10 counterexample: the claim's "only under" direction fails —
a resolved pattern with an absent content node runs to `Ok(false)`
without any panic even though `units` is ObjectBoundingBox and the
bounding box has no rectangle (precondition 2 violated). -/
theorem C10_counterexample_no_rect_no_panic :
    set_pattern_on_draw_context idEnv (fun _ => true) ⟨fullCommon, none, none⟩ noRect baseSt
      = some (baseSt, Except.ok false) ∧
    (⟨fullCommon, none, none⟩ : NodePattern).common.units
      = some ⟨CoordUnits.objectBoundingBox⟩ ∧
    noRect.rect = none ∧
    is_resolved (fun _ => true) ⟨fullCommon, none, none⟩ = true :=
  ⟨rfl, rfl, rfl, rfl⟩

/-- Claim C10 amended: the two preconditions (the pattern is resolved;
whenever `units` or `content_units` is ObjectBoundingBox the bounding
box's rectangle is present) are sufficient for panic-freedom, and the
first is also necessary (the entry assertion fires without it); the
second is not necessary in general — an absent content node, or a
present viewBox, bypasses the `bbox.rect` unwraps. -/
theorem C10_amended_panic_free :
    (∀ (env : RenderEnv) (hc : Nat → Bool) (self : NodePattern)
       (bbox : BoundingBox) (st : DrawState),
      is_resolved hc self = true →
      ((self.common.units = some ⟨CoordUnits.objectBoundingBox⟩ ∨
        self.common.content_units = some ⟨CoordUnits.objectBoundingBox⟩) →
        bbox.rect.isSome = true) →
      set_pattern_on_draw_context env hc self bbox st ≠ none) ∧
    (∀ (env : RenderEnv) (hc : Nat → Bool) (self : NodePattern)
       (bbox : BoundingBox) (st : DrawState),
      is_resolved hc self = false →
      set_pattern_on_draw_context env hc self bbox st = none) := by
  constructor
  · intro env hc self bbox st hres hrect
    have hfields := hres
    simp only [is_resolved, Bool.and_eq_true] at hfields
    obtain ⟨⟨⟨⟨⟨⟨⟨⟨⟨hu, hcu⟩, hvb⟩, hpar⟩, haff⟩, hx⟩, hy⟩, hw⟩, hh⟩, -⟩ := hfields
    rw [Option.isSome_iff_exists] at hu hcu hvb hpar haff hx hy hw hh
    obtain ⟨u, hu⟩ := hu
    obtain ⟨cu, hcu⟩ := hcu
    obtain ⟨vb, hvb⟩ := hvb
    obtain ⟨par, hpar⟩ := hpar
    obtain ⟨aff, haff⟩ := haff
    obtain ⟨xl, hx⟩ := hx
    obtain ⟨yl, hy⟩ := hy
    obtain ⟨wl, hw⟩ := hw
    obtain ⟨hl, hh⟩ := hh
    obtain ⟨uv⟩ := u
    obtain ⟨cuv⟩ := cu
    cases hnd : self.node with
    | none => simp [set_pattern_on_draw_context, hres, hnd]
    | some pn =>
      cases uv with
      | objectBoundingBox =>
        obtain ⟨r0, hr0⟩ := Option.isSome_iff_exists.mp (hrect (Or.inl hu))
        cases vb with
        | some vbx =>
          simp [set_pattern_on_draw_context, hres, hnd, hu, hcu, hvb, hpar, haff,
            hx, hy, hw, hh, hr0]
          split
          · simp
          · split <;> simp
        | none =>
          cases cuv with
          | objectBoundingBox =>
            simp [set_pattern_on_draw_context, hres, hnd, hu, hcu, hvb, hpar, haff,
              hx, hy, hw, hh, hr0]
            split
            · simp
            · split <;> simp
          | userSpaceOnUse =>
            simp [set_pattern_on_draw_context, hres, hnd, hu, hcu, hvb, hpar, haff,
              hx, hy, hw, hh, hr0]
            split
            · simp
            · split <;> simp
      | userSpaceOnUse =>
        cases vb with
        | some vbx =>
          simp [set_pattern_on_draw_context, hres, hnd, hu, hcu, hvb, hpar, haff,
            hx, hy, hw, hh]
          split
          · simp
          · split <;> simp
        | none =>
          cases cuv with
          | objectBoundingBox =>
            obtain ⟨r0, hr0⟩ := Option.isSome_iff_exists.mp (hrect (Or.inr hcu))
            simp [set_pattern_on_draw_context, hres, hnd, hu, hcu, hvb, hpar, haff,
              hx, hy, hw, hh, hr0]
            split
            · simp
            · split <;> simp
          | userSpaceOnUse =>
            simp [set_pattern_on_draw_context, hres, hnd, hu, hcu, hvb, hpar, haff,
              hx, hy, hw, hh]
            split
            · simp
            · split <;> simp
  · intro env hc self bbox st hres
    simp only [set_pattern_on_draw_context]
    rw [if_pos hres]

theorem C10_amended_panic_free_witness :
    set_pattern_on_draw_context idEnv (fun _ => true) uspPattern ⟨some ⟨0, 0, 1, 1⟩⟩ baseSt
      ≠ none :=
  C10_amended_panic_free.1 idEnv (fun _ => true) uspPattern ⟨some ⟨0, 0, 1, 1⟩⟩ baseSt rfl
    (fun _ => rfl)


/-- Claim C5: for a resolved pattern (with its bounding-box rectangle
present when units are ObjectBoundingBox), `set_pattern_on_draw_context`
returns `Ok(false)` with the drawing state unchanged (no paint source
installed, transform untouched) exactly when the resolved content-node
reference is absent, or the scaled logical tile size is zero within
`f64::EPSILON` in either dimension, or the truncated pixel tile size is
less than 1 in either dimension.  The hypotheses pin each quantity to
the computation the code performs (placement frame, normalized lengths,
bounding-box scales, row-norm scale factors). -/
theorem C5_skip_iff (env : RenderEnv) (hc : Nat → Bool) (bbox : BoundingBox) (st : DrawState)
    (u : PatternUnits) (cu : PatternContentUnits) (vb : Option ViewBox)
    (par : AspectRatio) (aff : Matrix) (xl yl wl hl : ℚ)
    (nd : Option Nat) (fb : Option Fragment)
    (hres : is_resolved hc ⟨⟨some u, some cu, some vb, some par, some aff,
      some xl, some yl, some wl, some hl⟩, nd, fb⟩ = true)
    (brect : Rect)
    (hbb : u = ⟨CoordUnits.objectBoundingBox⟩ → bbox.rect = some brect)
    (params : ViewParams)
    (hparams : params = if u = ⟨CoordUnits.objectBoundingBox⟩ then ⟨1, 1⟩ else st.viewParams)
    (w h bw bh scw sch : ℚ)
    (hw : w = env.normalizeH wl params)
    (hh : h = env.normalizeV hl params)
    (hbw : bw = if u = ⟨CoordUnits.objectBoundingBox⟩ then brect.width else 1)
    (hbh : bh = if u = ⟨CoordUnits.objectBoundingBox⟩ then brect.height else 1)
    (hscw : scw = env.sqrtQ ((Matrix.multiply aff st.crMatrix).xx * (Matrix.multiply aff st.crMatrix).xx
      + (Matrix.multiply aff st.crMatrix).xy * (Matrix.multiply aff st.crMatrix).xy))
    (hsch : sch = env.sqrtQ ((Matrix.multiply aff st.crMatrix).yx * (Matrix.multiply aff st.crMatrix).yx
      + (Matrix.multiply aff st.crMatrix).yy * (Matrix.multiply aff st.crMatrix).yy)) :
    set_pattern_on_draw_context env hc
        ⟨⟨some u, some cu, some vb, some par, some aff, some xl, some yl, some wl, some hl⟩,
          nd, fb⟩ bbox st
      = some (st, Except.ok false) ↔
    (nd = none ∨ |w * bw| < f64Epsilon ∨ |h * bh| < f64Epsilon ∨
      ratTrunc (w * bw * scw) < 1 ∨ ratTrunc (h * bh * sch) < 1) := by
  subst hparams hw hh hbw hbh hscw hsch
  obtain ⟨uv⟩ := u
  cases nd with
  | none => simp [set_pattern_on_draw_context, hres]
  | some pn =>
    cases uv with
    | objectBoundingBox =>
      have hr0 : bbox.rect = some brect := hbb rfl
      simp [set_pattern_on_draw_context, hres, hr0]
      split
      · rename_i heq
        exact iff_of_true rfl (by simpa using (tile_geometry_eq_none_iff _ _ _ _ _ _).mp heq)
      · rename_i heq
        refine iff_of_false ?_ ?_
        · (repeat' split) <;> simp
        · intro hcond
          rw [(tile_geometry_eq_none_iff _ _ _ _ _ _).mpr (by simpa using hcond)] at heq
          exact absurd heq (by simp)
    | userSpaceOnUse =>
      simp [set_pattern_on_draw_context, hres]
      split
      · rename_i heq
        exact iff_of_true rfl (by simpa using (tile_geometry_eq_none_iff _ _ _ _ _ _).mp heq)
      · rename_i heq
        refine iff_of_false ?_ ?_
        · (repeat' split) <;> simp
        · intro hcond
          rw [(tile_geometry_eq_none_iff _ _ _ _ _ _).mpr (by simpa using hcond)] at heq
          exact absurd heq (by simp)


theorem C5_skip_iff_witness :
    set_pattern_on_draw_context idEnv (fun _ => true)
        ⟨⟨some ⟨CoordUnits.userSpaceOnUse⟩, some ⟨CoordUnits.userSpaceOnUse⟩, some none,
          some AspectRatio.default, some Matrix.identity, some (0 : ℚ), some (0 : ℚ),
          some (1 : ℚ), some (1 : ℚ)⟩, none, none⟩ noRect baseSt
      = some (baseSt, Except.ok false) :=
  (C5_skip_iff idEnv (fun _ => true) noRect baseSt ⟨CoordUnits.userSpaceOnUse⟩
    ⟨CoordUnits.userSpaceOnUse⟩ none AspectRatio.default Matrix.identity 0 0 1 1 none none
    rfl ⟨0, 0, 0, 0⟩ (fun hca => absurd hca (by decide))
    _ rfl _ _ _ _ _ _ rfl rfl rfl rfl rfl rfl).mpr (Or.inl rfl)

end Rsvg
